import Mathlib

/-
Shallow embedding of the driver portal: the DriverNotifications component
(airport-transfer workflow, overdue-payment derivation, in-memory read flags)
and the send-whatsapp serverless function.

Modelling conventions:
  - dates and times are integer milliseconds since the epoch;
  - acceptance or rejection of a backend write/read is an explicit Boolean
    input of the operation (the rejected call leaves the table unchanged);
  - the supabase tables are lists of rows; an update statement with an id
    filter maps the update over the rows whose id matches.
-/

namespace DriverPortal

/-- Status enum of an airport_transfer row (interface AirportTransfer). -/
inductive TStatus where
  | pending
  | confirmed
  | completed
  | canceled
deriving DecidableEq, BEq

/-- A row of the airport_transfer table (interface AirportTransfer). -/
structure Transfer where
  id : Nat
  booking_code : String
  customer_name : String
  pickup_location : String
  dropoff_location : String
  pickup_date : Option String
  pickup_time : Option String
  status : TStatus
  driver_id : Option String
  price : Option Int
deriving DecidableEq

/-- A row of the drivers table, restricted to the columns the component reads. -/
structure DriverRow where
  id : String
  email : String
deriving DecidableEq

/-- The authenticated session user returned by supabase.auth.getUser. -/
structure AuthUser where
  email : String
deriving DecidableEq

/-- A row of the bookings table, restricted to the columns the derivation
reads; end_date is null-able and modelled in epoch milliseconds. -/
structure Booking where
  id : Nat
  code_booking : String
  user_id : String
  end_date : Option Int
  remaining_payments : Int
deriving DecidableEq

/-- A derived overdue reminder (interface OverdueMessage); created_at copies
the end date of the booking. -/
structure OverdueMessage where
  id : String
  message : String
  created_at : Int
  is_read : Bool
  type : String
  amount : Option Int
  days_overdue : Option Int
deriving DecidableEq

/-- JS toLowerCase, modelled on the character list of the string. -/
def lowerStr (s : String) : String := String.mk (s.data.map Char.toLower)

/-- Case-insensitive equality: the semantics of the PostgREST ilike filter
applied to a pattern without wildcard characters, as in
.ilike("email", user.email) at line 87 of the component. -/
def ilikeEq (a b : String) : Bool := lowerStr a == lowerStr b

/-- The driver lookup of fetchAirportTransfers (lines 84-89): filter the
drivers table by ilike on email, then maybeSingle, which yields no row on an
empty result, the row on a single match, and an error on several rows. -/
def ilikeMaybeSingle (drivers : List DriverRow) (email : String) :
    Except Unit (Option DriverRow) :=
  match drivers.filter (fun d => ilikeEq d.email email) with
  | [] => .ok none
  | [d] => .ok (some d)
  | _ => .error ()

/-- The driver lookup of handleAccept (lines 222-226): filter the drivers
table by exact equality on email, then single, which yields the row on
exactly one match and an error on zero or several rows. -/
def eqSingle (drivers : List DriverRow) (email : String) : Option DriverRow :=
  match drivers.filter (fun d => d.email == email) with
  | [d] => some d
  | _ => none

/-- Membership of a transfer status in the status group the fetch selects:
in ("completed","canceled") in history mode, in ("pending","confirmed")
otherwise (lines 114-118). -/
def statusGroup (historyMode : Bool) (s : TStatus) : Bool :=
  if historyMode then s == .completed || s == .canceled
  else s == .pending || s == .confirmed

/-- The airport_transfer query of fetchAirportTransfers (lines 109-120):
rows with the given driver_id whose status lies in the selected group. -/
def transferQuery (db : List Transfer) (driverId : String) (historyMode : Bool) :
    List Transfer :=
  db.filter (fun t => t.driver_id == some driverId && statusGroup historyMode t.status)

/-- Milliseconds in a day, 1000 * 60 * 60 * 24. -/
def dayMs : Int := 86400000

/-- Math.ceil(diffTime / (1000 * 60 * 60 * 24)) on an integer diffTime:
the integer ceiling of diffTime / dayMs. -/
def ceilDays (diffTime : Int) : Int := (diffTime + dayMs - 1).ediv dayMs

/-- The message pushed for one overdue booking (lines 171-179);
toLocaleString is modelled as toString. -/
def overdueMsg (b : Booking) (ed diffDays : Int) : OverdueMessage :=
  { id := "overdue-" ++ toString b.id
  , message := "Pembayaran untuk booking " ++ b.code_booking ++ " telah jatuh tempo "
      ++ toString diffDays ++ " hari. Sisa pembayaran: Rp "
      ++ toString b.remaining_payments
  , created_at := ed
  , is_read := false
  , type := "overdue"
  , amount := some b.remaining_payments
  , days_overdue := some diffDays }

/-- The derivation loop of fetchOverdueMessages (lines 150-182): the bookings
query keeps rows with the given user_id and remaining_payments > 0; each kept
booking with an end date and a positive diffDays contributes one message. -/
def deriveOverdueMessages (bookings : List Booking) (userId : String) (now : Int) :
    List OverdueMessage :=
  (bookings.filter (fun b => b.user_id == userId && decide (0 < b.remaining_payments))).filterMap
    (fun b =>
      match b.end_date with
      | none => none
      | some ed =>
        let diffDays := ceilDays (now - ed)
        if 0 < diffDays then some (overdueMsg b ed diffDays) else none)

/-- The component state touched by the fetch and by markMessageAsRead. -/
structure NotifState where
  transfers : List Transfer
  overdueMessages : List OverdueMessage
  unreadCount : Int
  error : Option String
  driverId : Option String
deriving DecidableEq

/-- The external world a fetch runs against. -/
structure Env where
  auth : Option AuthUser
  drivers : List DriverRow
  airport_transfer : List Transfer
  bookings : List Booking
  now : Int

/-- fetchOverdueMessages (lines 147-189): on a bookings query error the
state is left as is; otherwise the derived messages replace the list and the
unread counter becomes the number of unread messages. -/
def fetchOverdueMessages (env : Env) (bookingsOk : Bool) (userId : String)
    (s : NotifState) : NotifState :=
  if bookingsOk then
    let msgs := deriveOverdueMessages env.bookings userId env.now
    { s with overdueMessages := msgs
           , unreadCount := Int.ofNat (msgs.filter (fun m => !m.is_read)).length }
  else s

/-- fetchAirportTransfers (lines 66-145): resolve the session user, resolve
the driver row by ilike on email, run the transfer query, then fetch the
overdue messages. A transfer query error sets an error message but does not
stop the overdue fetch; an empty transfer result sets an informational error
message and continues as well. -/
def fetchAirportTransfers (env : Env) (historyMode : Bool)
    (transferOk bookingsOk : Bool) (s : NotifState) : NotifState :=
  let s0 := { s with error := none }
  match env.auth with
  | none => { s0 with error := some "Driver not authenticated" }
  | some user =>
    match ilikeMaybeSingle env.drivers user.email with
    | .error _ => { s0 with error := some "Driver lookup failed" }
    | .ok none => { s0 with error := some "Driver ID not found for current user" }
    | .ok (some drv) =>
      let s1 := { s0 with driverId := some drv.id }
      let s2 :=
        if transferOk then
          let data := transferQuery env.airport_transfer drv.id historyMode
          { s1 with transfers := data
                  , error := if data.isEmpty then
                      some (if historyMode then "No airport transfer history found."
                            else "No pending transfers assigned to you.")
                    else none }
        else { s1 with error := some "Failed to get airport transfers" }
      fetchOverdueMessages env bookingsOk drv.id s2

/-- markMessageAsRead (lines 191-198): mark the matching message read and
decrement the unread counter, clamped at zero by Math.max. -/
def markMessageAsRead (messageId : String) (s : NotifState) : NotifState :=
  { s with
      overdueMessages := s.overdueMessages.map
        (fun msg => if msg.id == messageId then { msg with is_read := true } else msg),
      unreadCount := max 0 (s.unreadCount - 1) }

/-- Outcome of handleAccept reported to the user via toast. -/
inductive AcceptResult where
  | notAuthenticated
  | driverNotFound
  | updateFailed
  | success (driverId : String)
deriving DecidableEq

/-- The update payload of handleAccept (lines 246-249). -/
def acceptUpdate (drvId : String) (t : Transfer) : Transfer :=
  { t with status := .confirmed, driver_id := some drvId }

/-- An update statement filtered by eq on id: the update is applied to every
row whose id matches and no other row. -/
def updateWhereId (db : List Transfer) (tid : Nat) (f : Transfer → Transfer) :
    List Transfer :=
  db.map (fun t => if t.id == tid then f t else t)

/-- Result and post-state of one handleAccept invocation: db is the persisted
airport_transfer table, transfers the in-memory list. -/
structure AcceptOutcome where
  result : AcceptResult
  db : List Transfer
  transfers : List Transfer
deriving DecidableEq

/-- handleAccept (lines 204-294): resolve the session user, resolve the
driver row by exact email match with single, persist the status update, then
reconcile the in-memory list with the same update. Every failure path
returns before any mutation. The trailing list refresh is the separate
fetchAirportTransfers operation and is not folded in here. -/
def handleAccept (auth : Option AuthUser) (drivers : List DriverRow)
    (updateOk : Bool) (transferId : Nat) (db transfers : List Transfer) :
    AcceptOutcome :=
  match auth with
  | none => ⟨.notAuthenticated, db, transfers⟩
  | some user =>
    match eqSingle drivers user.email with
    | none => ⟨.driverNotFound, db, transfers⟩
    | some drv =>
      if updateOk then
        ⟨.success drv.id,
         updateWhereId db transferId (acceptUpdate drv.id),
         updateWhereId transfers transferId (acceptUpdate drv.id)⟩
      else ⟨.updateFailed, db, transfers⟩

/-- Outcome of handleDecline or handleComplete. -/
inductive SimpleResult where
  | ok
  | updateFailed
deriving DecidableEq

/-- Result and post-state of one handleDecline or handleComplete invocation. -/
structure SimpleOutcome where
  result : SimpleResult
  db : List Transfer
  transfers : List Transfer
deriving DecidableEq

/-- The update payload of handleDecline and handleComplete: only the status
field changes. -/
def setStatus (st : TStatus) (t : Transfer) : Transfer := { t with status := st }

/-- handleComplete (lines 344-390): persist status completed for the id with
no client-side check of the current status, then reconcile the in-memory
list the same way. -/
def handleComplete (updateOk : Bool) (transferId : Nat)
    (db transfers : List Transfer) : SimpleOutcome :=
  if updateOk then
    ⟨.ok, updateWhereId db transferId (setStatus .completed),
          updateWhereId transfers transferId (setStatus .completed)⟩
  else ⟨.updateFailed, db, transfers⟩

/-- handleDecline (lines 296-342): persist status canceled for the id with
no identity resolution and no client-side check of the current status. -/
def handleDecline (updateOk : Bool) (transferId : Nat)
    (db transfers : List Transfer) : SimpleOutcome :=
  if updateOk then
    ⟨.ok, updateWhereId db transferId (setStatus .canceled),
          updateWhereId transfers transferId (setStatus .canceled)⟩
  else ⟨.updateFailed, db, transfers⟩

/-- A concrete pending transfer row used in closed instances. -/
def sampleTransfer : Transfer :=
  { id := 1, booking_code := "BK1", customer_name := "Budi"
  , pickup_location := "Soekarno-Hatta", dropoff_location := "Hotel Indonesia"
  , pickup_date := some "2025-01-01", pickup_time := some "10:00"
  , status := .pending, driver_id := some "d1", price := some 250000 }

/-- A concrete driver row used in closed instances. -/
def sampleDriver : DriverRow := { id := "d1", email := "driver@x.com" }

end DriverPortal

namespace SendWhatsapp

/-- A JSON value, used for the response envelope of the function. -/
inductive JsonVal where
  | null
  | bool (b : Bool)
  | num (n : Int)
  | str (s : String)
  | obj (fields : List (String × JsonVal))

/-- Field lookup in a JSON object; none on a non-object or a missing key. -/
def JsonVal.getField : JsonVal → String → Option JsonVal
  | .obj fields, k => (fields.find? (fun p => p.1 == k)).map (fun p => p.2)
  | _, _ => none

/-- The target field of the request body: an array of strings, a string, or
null/undefined. -/
inductive TargetVal where
  | arr (elems : List String)
  | str (s : String)
  | nullv
deriving DecidableEq

/-- The request body: valid carries the parsed target and message fields,
invalid a body on which req.json() throws, carrying the error text. -/
inductive ReqBody where
  | valid (target : TargetVal) (message : String)
  | invalid (err : String)
deriving DecidableEq

/-- The upstream gateway behaviour for one call: resp is a response with its
ok flag, HTTP status, body text, and the parse of the body when the body is
JSON; failed is a fetch that throws, carrying the error text. -/
inductive UpstreamResult where
  | resp (ok : Bool) (status : Nat) (bodyText : String) (parsed : Option JsonVal)
  | failed (err : String)

/-- Body of the HTTP response the function returns. -/
inductive RespBody where
  | text (s : String)
  | json (j : JsonVal)

/-- The HTTP response the function returns. -/
structure HttpResponse where
  status : Nat
  body : RespBody

/-- Observable outcome of one invocation: the response, and the
(target, message) form payload passed to fetch when a forward was issued. -/
structure ServeOutcome where
  response : HttpResponse
  forwarded : Option (String × String)

/-- Whitespace trimming at both ends of a character list. -/
def trimCharList (l : List Char) : List Char :=
  ((l.dropWhile Char.isWhitespace).reverse.dropWhile Char.isWhitespace).reverse

/-- JS String.prototype.trim, modelled on the character list. -/
def jsTrim (s : String) : String := String.mk (trimCharList s.data)

/-- Target normalisation (lines 22-24 of index.ts): an array is filtered by
Boolean, which on strings keeps the non-empty ones, and comma-joined; any
other value goes through String(target or-else "") and trim, so null and
undefined become the empty string. -/
def formattedTarget : TargetVal → String
  | .arr elems => String.intercalate "," (elems.filter (fun x => x != ""))
  | .str s => jsTrim s
  | .nullv => ""

/-- The serve handler of index.ts: OPTIONS short-circuits to a plain ok;
otherwise the body is parsed, the target normalised and forwarded, and the
result wrapped in a JSON envelope with HTTP status 200. A thrown error
(unparsable request body, or a fetch that throws) lands in the catch block,
which also answers 200 but with the envelope success false plus error text.
The Authorization header is not observable here and is left out. -/
def serveHandler (method : String) (body : ReqBody) (upstream : UpstreamResult) :
    ServeOutcome :=
  if method == "OPTIONS" then
    ⟨⟨200, .text "ok"⟩, none⟩
  else
    match body with
    | .invalid err =>
      ⟨⟨200, .json (.obj [("success", .bool false), ("error", .str err)])⟩, none⟩
    | .valid target message =>
      let ft := formattedTarget target
      match upstream with
      | .failed err =>
        ⟨⟨200, .json (.obj [("success", .bool false), ("error", .str err)])⟩,
         some (ft, message)⟩
      | .resp ok status bodyText parsed =>
        let data := match parsed with
          | some j => j
          | none => .obj [("raw", .str bodyText)]
        ⟨⟨200, .json (.obj [("success", .bool ok), ("status", .num (Int.ofNat status)),
                            ("data", data)])⟩,
         some (ft, message)⟩

end SendWhatsapp

namespace DriverPortal

theorem updateWhereId_mem (db : List Transfer) (tid : Nat) (f : Transfer → Transfer)
    (x : Transfer) (hx : x ∈ updateWhereId db tid f) :
    ∃ y ∈ db, x = if y.id == tid then f y else y := by
  rw [updateWhereId] at hx
  obtain ⟨y, hy, hxy⟩ := List.mem_map.mp hx
  exact ⟨y, hy, hxy.symm⟩

theorem updateWhereId_of_mem (db : List Transfer) (tid : Nat) (f : Transfer → Transfer)
    (t : Transfer) (ht : t ∈ db) (hid : t.id = tid) :
    f t ∈ updateWhereId db tid f := by
  rw [updateWhereId]
  have h : f t = (fun y => if y.id == tid then f y else y) t := by
    simp [hid]
  rw [h]
  exact List.mem_map_of_mem _ ht

/-- C1: for every transfer in state pending, handleAccept with a valid driver
identity (a session whose email resolves to a driver row) reports success,
and that transfer carries status confirmed and the resolved driver id both in
the persisted table and in the reconciled in-memory list. -/
theorem accept_confirms_and_assigns (u : AuthUser) (drv : DriverRow)
    (drivers : List DriverRow) (db transfers : List Transfer) (tid : Nat)
    (t : Transfer) (hresolve : eqSingle drivers u.email = some drv)
    (ht : t ∈ db) (hid : t.id = tid) (hpend : t.status = .pending) :
    (handleAccept (some u) drivers true tid db transfers).result = .success drv.id
    ∧ acceptUpdate drv.id t ∈ (handleAccept (some u) drivers true tid db transfers).db
    ∧ (∀ x ∈ (handleAccept (some u) drivers true tid db transfers).db,
        x.id = tid → x.status = .confirmed ∧ x.driver_id = some drv.id)
    ∧ (∀ x ∈ (handleAccept (some u) drivers true tid db transfers).transfers,
        x.id = tid → x.status = .confirmed ∧ x.driver_id = some drv.id) := by
  have hred : handleAccept (some u) drivers true tid db transfers =
      ⟨.success drv.id, updateWhereId db tid (acceptUpdate drv.id),
       updateWhereId transfers tid (acceptUpdate drv.id)⟩ := by
    simp [handleAccept, hresolve]
  rw [hred]
  refine ⟨rfl, updateWhereId_of_mem db tid _ t ht hid, ?_, ?_⟩ <;>
  · intro x hx hxid
    obtain ⟨y, hy, hxy⟩ := updateWhereId_mem _ tid _ x hx
    by_cases hc : y.id = tid
    · rw [hc, if_pos (beq_self_eq_true tid)] at hxy
      subst hxy
      exact ⟨rfl, rfl⟩
    · rw [if_neg (by simp [hc])] at hxy
      subst hxy
      exact absurd hxid hc

/-- C1 witness: the theorem applied at a concrete pending transfer and a
concrete driver directory. -/
theorem accept_confirms_and_assigns_witness :
    (handleAccept (some ⟨"driver@x.com"⟩) [sampleDriver] true 1
      [sampleTransfer] [sampleTransfer]).result = .success "d1"
    ∧ acceptUpdate "d1" sampleTransfer ∈ (handleAccept (some ⟨"driver@x.com"⟩)
        [sampleDriver] true 1 [sampleTransfer] [sampleTransfer]).db
    ∧ (∀ x ∈ (handleAccept (some ⟨"driver@x.com"⟩) [sampleDriver] true 1
        [sampleTransfer] [sampleTransfer]).db,
        x.id = 1 → x.status = .confirmed ∧ x.driver_id = some "d1")
    ∧ (∀ x ∈ (handleAccept (some ⟨"driver@x.com"⟩) [sampleDriver] true 1
        [sampleTransfer] [sampleTransfer]).transfers,
        x.id = 1 → x.status = .confirmed ∧ x.driver_id = some "d1") :=
  accept_confirms_and_assigns ⟨"driver@x.com"⟩ sampleDriver [sampleDriver]
    [sampleTransfer] [sampleTransfer] 1 sampleTransfer (by decide)
    (by decide) (by decide) (by decide)

/-- C2: handleAccept is atomic on failure: whenever the session is missing,
the email does not resolve to a driver row, or the backend rejects the
update, the invocation reports an error result and both the persisted table
and the in-memory list are unchanged. -/
theorem accept_failure_no_mutation (auth : Option AuthUser)
    (drivers : List DriverRow) (updateOk : Bool) (tid : Nat)
    (db transfers : List Transfer)
    (hfail : auth = none
      ∨ (∃ u, auth = some u ∧ eqSingle drivers u.email = none)
      ∨ updateOk = false) :
    (∀ d, (handleAccept auth drivers updateOk tid db transfers).result ≠ .success d)
    ∧ (handleAccept auth drivers updateOk tid db transfers).db = db
    ∧ (handleAccept auth drivers updateOk tid db transfers).transfers = transfers := by
  cases auth with
  | none => simp [handleAccept]
  | some u =>
    cases hres : eqSingle drivers u.email with
    | none => simp [handleAccept, hres]
    | some drv =>
      have hupd : updateOk = false := by
        rcases hfail with h | ⟨v, hv, hres2⟩ | h
        · exact absurd h (by simp)
        · injection hv with h2
          subst h2
          rw [hres] at hres2
          exact absurd hres2 (by simp)
        · exact h
      subst hupd
      simp [handleAccept, hres]

/-- C2 witness: the theorem applied at a concrete invocation with no
authenticated session. -/
theorem accept_failure_no_mutation_witness :
    (∀ d, (handleAccept none [sampleDriver] true 1 [sampleTransfer]
      [sampleTransfer]).result = AcceptResult.success d → False)
    ∧ (handleAccept none [sampleDriver] true 1 [sampleTransfer]
        [sampleTransfer]).db = [sampleTransfer]
    ∧ (handleAccept none [sampleDriver] true 1 [sampleTransfer]
        [sampleTransfer]).transfers = [sampleTransfer] :=
  accept_failure_no_mutation none [sampleDriver] true 1 [sampleTransfer]
    [sampleTransfer] (Or.inl rfl)

theorem mem_transferQuery (db : List Transfer) (driverId : String)
    (historyMode : Bool) (x : Transfer) (hx : x ∈ transferQuery db driverId historyMode) :
    x ∈ db ∧ x.driver_id = some driverId ∧ statusGroup historyMode x.status = true := by
  rw [transferQuery] at hx
  obtain ⟨hmem, hpred⟩ := List.mem_filter.mp hx
  rw [Bool.and_eq_true] at hpred
  exact ⟨hmem, by simpa using hpred.1, hpred.2⟩

theorem statusGroup_false_excludes (st : TStatus) (h : statusGroup false st = true) :
    st ≠ .completed ∧ st ≠ .canceled := by
  revert h
  cases st <;> decide

theorem statusGroup_true_excludes (st : TStatus) (h : statusGroup true st = true) :
    st ≠ .pending ∧ st ≠ .confirmed := by
  revert h
  cases st <;> decide

theorem fetchOverdueMessages_transfers (env : Env) (bookingsOk : Bool)
    (uid : String) (s : NotifState) :
    (fetchOverdueMessages env bookingsOk uid s).transfers = s.transfers := by
  rw [fetchOverdueMessages]
  split <;> rfl

theorem fetchOverdueMessages_msgs (env : Env) (uid : String) (s : NotifState) :
    (fetchOverdueMessages env true uid s).overdueMessages =
      deriveOverdueMessages env.bookings uid env.now := by
  rw [fetchOverdueMessages]
  simp

theorem fetch_transfers_eq (env : Env) (historyMode bookingsOk : Bool)
    (s : NotifState) (u : AuthUser) (drv : DriverRow)
    (hauth : env.auth = some u)
    (hres : ilikeMaybeSingle env.drivers u.email = .ok (some drv)) :
    (fetchAirportTransfers env historyMode true bookingsOk s).transfers =
      transferQuery env.airport_transfer drv.id historyMode := by
  simp only [fetchAirportTransfers, hauth, hres]
  rw [fetchOverdueMessages_transfers]
  simp

theorem fetch_msgs_eq (env : Env) (historyMode : Bool)
    (s : NotifState) (u : AuthUser) (drv : DriverRow)
    (hauth : env.auth = some u)
    (hres : ilikeMaybeSingle env.drivers u.email = .ok (some drv)) :
    (fetchAirportTransfers env historyMode true true s).overdueMessages =
      deriveOverdueMessages env.bookings drv.id env.now := by
  simp only [fetchAirportTransfers, hauth, hres]
  rw [fetchOverdueMessages_msgs]

/-- C3: the transfer list fetched in active mode contains no completed or
canceled record and the one fetched in history mode contains no pending or
confirmed record; an empty transfer result does not abort the fetch, which
still derives the overdue messages. -/
theorem fetch_status_groups (env : Env) (historyMode : Bool)
    (bookingsOk : Bool) (s : NotifState) (u : AuthUser) (drv : DriverRow)
    (hauth : env.auth = some u)
    (hres : ilikeMaybeSingle env.drivers u.email = .ok (some drv)) :
    (∀ x ∈ (fetchAirportTransfers env historyMode true bookingsOk s).transfers,
      (historyMode = false → x.status ≠ .completed ∧ x.status ≠ .canceled)
      ∧ (historyMode = true → x.status ≠ .pending ∧ x.status ≠ .confirmed))
    ∧ (transferQuery env.airport_transfer drv.id historyMode = [] →
        (fetchAirportTransfers env historyMode true true s).transfers = []
        ∧ (fetchAirportTransfers env historyMode true true s).overdueMessages
            = deriveOverdueMessages env.bookings drv.id env.now) := by
  constructor
  · intro x hx
    rw [fetch_transfers_eq env historyMode bookingsOk s u drv hauth hres] at hx
    have hq := mem_transferQuery _ _ _ _ hx
    constructor
    · intro hfalse
      rw [hfalse] at hq
      exact statusGroup_false_excludes x.status hq.2.2
    · intro htrue
      rw [htrue] at hq
      exact statusGroup_true_excludes x.status hq.2.2
  · intro hempty
    constructor
    · rw [fetch_transfers_eq env historyMode true s u drv hauth hres]
      exact hempty
    · exact fetch_msgs_eq env historyMode s u drv hauth hres

/-- C3 witness: the theorem applied at a concrete environment in which the
transfer table holds one confirmed transfer of the resolved driver. -/
theorem fetch_status_groups_witness :
    (∀ x ∈ (fetchAirportTransfers
        ⟨some ⟨"driver@x.com"⟩, [sampleDriver], [sampleTransfer], [], 0⟩
        false true true ⟨[], [], 0, none, none⟩).transfers,
      (false = false → x.status ≠ .completed ∧ x.status ≠ .canceled)
      ∧ (false = true → x.status ≠ .pending ∧ x.status ≠ .confirmed))
    ∧ (transferQuery [sampleTransfer] "d1" false = [] →
        (fetchAirportTransfers
          ⟨some ⟨"driver@x.com"⟩, [sampleDriver], [sampleTransfer], [], 0⟩
          false true true ⟨[], [], 0, none, none⟩).transfers = []
        ∧ (fetchAirportTransfers
            ⟨some ⟨"driver@x.com"⟩, [sampleDriver], [sampleTransfer], [], 0⟩
            false true true ⟨[], [], 0, none, none⟩).overdueMessages
            = deriveOverdueMessages [] "d1" 0) :=
  fetch_status_groups
    ⟨some ⟨"driver@x.com"⟩, [sampleDriver], [sampleTransfer], [], 0⟩
    false true ⟨[], [], 0, none, none⟩ ⟨"driver@x.com"⟩ sampleDriver
    rfl rfl

theorem deriveOverdueMessages_append (l1 l2 : List Booking) (uid : String)
    (now : Int) :
    deriveOverdueMessages (l1 ++ l2) uid now =
      deriveOverdueMessages l1 uid now ++ deriveOverdueMessages l2 uid now := by
  simp [deriveOverdueMessages, List.filter_append, List.filterMap_append]

theorem deriveOverdueMessages_singleton (b : Booking) (uid : String) (now : Int)
    (huid : b.user_id = uid) (hpos : 0 < b.remaining_payments) :
    deriveOverdueMessages [b] uid now =
      match b.end_date with
      | none => []
      | some ed =>
        if 0 < ceilDays (now - ed) then [overdueMsg b ed (ceilDays (now - ed))]
        else [] := by
  rw [deriveOverdueMessages]
  have hf : List.filter (fun b => b.user_id == uid && decide (0 < b.remaining_payments)) [b]
      = [b] := by
    simp [List.filter, huid, hpos]
  rw [hf]
  cases hed : b.end_date with
  | none => simp [List.filterMap, hed]
  | some ed =>
    by_cases hd : 0 < ceilDays (now - ed)
    · simp [List.filterMap, hed, hd]
    · simp [List.filterMap, hed, hd]

/-- C4: for a booking of the driver with positive remaining payment, the
deriver emits exactly one message exactly when the booking has an end date
and the ceiling of (now minus end date) in days is positive, the message
carrying that ceiling as days_overdue and the remaining payment as amount;
derivation distributes over list append; the scenario end date five days ago
with remaining payment 500000 yields one message with days_overdue five and
amount 500000, and an end date one day ahead yields none. -/
theorem overdue_derivation (b : Booking) (uid : String) (now : Int)
    (huid : b.user_id = uid) (hpos : 0 < b.remaining_payments) :
    (∀ ed, b.end_date = some ed → 0 < ceilDays (now - ed) →
      deriveOverdueMessages [b] uid now = [overdueMsg b ed (ceilDays (now - ed))]
      ∧ (overdueMsg b ed (ceilDays (now - ed))).days_overdue
          = some (ceilDays (now - ed))
      ∧ (overdueMsg b ed (ceilDays (now - ed))).amount = some b.remaining_payments)
    ∧ (b.end_date = none → deriveOverdueMessages [b] uid now = [])
    ∧ (∀ ed, b.end_date = some ed → ceilDays (now - ed) ≤ 0 →
        deriveOverdueMessages [b] uid now = [])
    ∧ (∀ l1 l2 : List Booking, deriveOverdueMessages (l1 ++ l2) uid now =
        deriveOverdueMessages l1 uid now ++ deriveOverdueMessages l2 uid now)
    ∧ deriveOverdueMessages [⟨7, "BK7", uid, some (now - 5 * dayMs), 500000⟩] uid now
        = [overdueMsg ⟨7, "BK7", uid, some (now - 5 * dayMs), 500000⟩ (now - 5 * dayMs) 5]
    ∧ (overdueMsg ⟨7, "BK7", uid, some (now - 5 * dayMs), 500000⟩ (now - 5 * dayMs) 5).days_overdue
        = some 5
    ∧ (overdueMsg ⟨7, "BK7", uid, some (now - 5 * dayMs), 500000⟩ (now - 5 * dayMs) 5).amount
        = some 500000
    ∧ deriveOverdueMessages [⟨8, "BK8", uid, some (now + dayMs), 500000⟩] uid now
        = [] := by
  have hc5 : ceilDays (now - (now - 5 * dayMs)) = 5 := by
    have : now - (now - 5 * dayMs) = 5 * dayMs := by ring
    rw [this]
    decide
  have hcm : ceilDays (now - (now + dayMs)) = -1 := by
    have : now - (now + dayMs) = -dayMs := by ring
    rw [this]
    decide
  refine ⟨?_, ?_, ?_, fun l1 l2 => deriveOverdueMessages_append l1 l2 uid now, ?_, rfl, rfl, ?_⟩
  · intro ed hed hd
    rw [deriveOverdueMessages_singleton b uid now huid hpos, hed]
    exact ⟨by simp [hd], rfl, rfl⟩
  · intro hed
    rw [deriveOverdueMessages_singleton b uid now huid hpos, hed]
  · intro ed hed hd
    rw [deriveOverdueMessages_singleton b uid now huid hpos, hed]
    simp [not_lt.mpr hd]
  · rw [deriveOverdueMessages_singleton _ uid now rfl (by norm_num)]
    simp only [hc5]
    norm_num
  · rw [deriveOverdueMessages_singleton _ uid now rfl (by norm_num)]
    simp only [hcm]
    norm_num

/-- C4 witness: the theorem applied at a concrete booking of driver d1 with
remaining payment 500000, with now equal to zero. -/
theorem overdue_derivation_witness :
    (∀ ed, (⟨7, "BK7", "d1", some (-(5 * dayMs)), 500000⟩ : Booking).end_date = some ed →
      0 < ceilDays (0 - ed) →
      deriveOverdueMessages [⟨7, "BK7", "d1", some (-(5 * dayMs)), 500000⟩] "d1" 0
        = [overdueMsg ⟨7, "BK7", "d1", some (-(5 * dayMs)), 500000⟩ ed (ceilDays (0 - ed))]
      ∧ (overdueMsg ⟨7, "BK7", "d1", some (-(5 * dayMs)), 500000⟩ ed (ceilDays (0 - ed))).days_overdue
          = some (ceilDays (0 - ed))
      ∧ (overdueMsg ⟨7, "BK7", "d1", some (-(5 * dayMs)), 500000⟩ ed (ceilDays (0 - ed))).amount
          = some 500000)
    ∧ ((⟨7, "BK7", "d1", some (-(5 * dayMs)), 500000⟩ : Booking).end_date = none →
        deriveOverdueMessages [⟨7, "BK7", "d1", some (-(5 * dayMs)), 500000⟩] "d1" 0 = [])
    ∧ (∀ ed, (⟨7, "BK7", "d1", some (-(5 * dayMs)), 500000⟩ : Booking).end_date = some ed →
        ceilDays (0 - ed) ≤ 0 →
        deriveOverdueMessages [⟨7, "BK7", "d1", some (-(5 * dayMs)), 500000⟩] "d1" 0 = [])
    ∧ (∀ l1 l2 : List Booking, deriveOverdueMessages (l1 ++ l2) "d1" 0 =
        deriveOverdueMessages l1 "d1" 0 ++ deriveOverdueMessages l2 "d1" 0)
    ∧ deriveOverdueMessages [⟨7, "BK7", "d1", some ((0 : Int) - 5 * dayMs), 500000⟩] "d1" 0
        = [overdueMsg ⟨7, "BK7", "d1", some ((0 : Int) - 5 * dayMs), 500000⟩ ((0 : Int) - 5 * dayMs) 5]
    ∧ (overdueMsg ⟨7, "BK7", "d1", some ((0 : Int) - 5 * dayMs), 500000⟩ ((0 : Int) - 5 * dayMs) 5).days_overdue
        = some 5
    ∧ (overdueMsg ⟨7, "BK7", "d1", some ((0 : Int) - 5 * dayMs), 500000⟩ ((0 : Int) - 5 * dayMs) 5).amount
        = some 500000
    ∧ deriveOverdueMessages [⟨8, "BK8", "d1", some ((0 : Int) + dayMs), 500000⟩] "d1" 0
        = [] :=
  overdue_derivation ⟨7, "BK7", "d1", some (-(5 * dayMs)), 500000⟩ "d1" 0 rfl (by decide)

/-- C5 counterexample: with the driver directory holding the stored email
Alice@Example.com and a session email differing only in letter case, the
fetch path resolves the driver but the accept path does not: handleAccept
fails with driver not found, so the two operations do not resolve the same
record. -/
theorem email_match_counterexample :
    lowerStr "alice@example.com" = lowerStr "Alice@Example.com"
    ∧ ilikeMaybeSingle [⟨"d1", "Alice@Example.com"⟩] "alice@example.com"
        = Except.ok (some ⟨"d1", "Alice@Example.com"⟩)
    ∧ eqSingle [⟨"d1", "Alice@Example.com"⟩] "alice@example.com" = none
    ∧ (handleAccept (some ⟨"alice@example.com"⟩) [⟨"d1", "Alice@Example.com"⟩]
        true 1 [sampleTransfer] [sampleTransfer]).result = .driverNotFound :=
  ⟨by decide, rfl, by decide, rfl⟩

/-- C5 amended: only the transfer-list fetch matches the session email
case-insensitively: emails equal up to letter case resolve identically
against any driver directory; the accept path matches the stored email by
exact string equality. -/
theorem email_match_amended (drivers : List DriverRow) (e1 e2 : String)
    (h : lowerStr e1 = lowerStr e2) :
    ilikeMaybeSingle drivers e1 = ilikeMaybeSingle drivers e2
    ∧ (∀ d : DriverRow, eqSingle [d] e1 = some d ↔ d.email = e1) := by
  constructor
  · rw [ilikeMaybeSingle, ilikeMaybeSingle]
    have hfun : (fun d : DriverRow => ilikeEq d.email e1)
        = (fun d : DriverRow => ilikeEq d.email e2) := by
      funext d
      rw [ilikeEq, ilikeEq, h]
    rw [hfun]
  · intro d
    by_cases hm : d.email = e1
    · simp [eqSingle, List.filter, hm]
    · have hb : (d.email == e1) = false := by simp [hm]
      simp [eqSingle, List.filter, hb, hm]

/-- C5 amended witness: the theorem applied at the two concrete emails that
differ only in letter case. -/
theorem email_match_amended_witness :
    ilikeMaybeSingle [⟨"d1", "Alice@Example.com"⟩] "alice@example.com"
      = ilikeMaybeSingle [⟨"d1", "Alice@Example.com"⟩] "Alice@Example.com"
    ∧ (∀ d : DriverRow, eqSingle [d] "alice@example.com" = some d
        ↔ d.email = "alice@example.com") :=
  email_match_amended [⟨"d1", "Alice@Example.com"⟩] "alice@example.com"
    "Alice@Example.com" (by decide)

theorem updateWhereId_setStatus_idem (db : List Transfer) (tid : Nat) (st : TStatus) :
    updateWhereId (updateWhereId db tid (setStatus st)) tid (setStatus st)
      = updateWhereId db tid (setStatus st) := by
  simp only [updateWhereId, List.map_map]
  apply List.map_congr_left
  intro t _
  by_cases h : t.id = tid
  · simp [Function.comp, h, setStatus]
  · simp [Function.comp, h]

/-- C6: handleComplete is unconditional and idempotent: with the backend
accepting the update, every row with the given id ends at status completed
whatever its prior status, the call reports success, and a second call on
the same identifier reports success again and changes nothing. -/
theorem complete_unconditional_idempotent (tid : Nat) (db transfers : List Transfer) :
    (∀ x ∈ (handleComplete true tid db transfers).db, x.id = tid →
      x.status = .completed)
    ∧ (handleComplete true tid db transfers).result = .ok
    ∧ (handleComplete true tid (handleComplete true tid db transfers).db
        (handleComplete true tid db transfers).transfers).result = .ok
    ∧ (handleComplete true tid (handleComplete true tid db transfers).db
        (handleComplete true tid db transfers).transfers).db
        = (handleComplete true tid db transfers).db
    ∧ (handleComplete true tid (handleComplete true tid db transfers).db
        (handleComplete true tid db transfers).transfers).transfers
        = (handleComplete true tid db transfers).transfers := by
  refine ⟨?_, rfl, rfl, ?_, ?_⟩
  · intro x hx hxid
    obtain ⟨y, hy, hxy⟩ := updateWhereId_mem _ tid _ x hx
    by_cases hc : y.id = tid
    · rw [hc, if_pos (beq_self_eq_true tid)] at hxy
      subst hxy
      rfl
    · rw [if_neg (by simp [hc])] at hxy
      subst hxy
      exact absurd hxid hc
  · show updateWhereId (updateWhereId db tid _) tid _ = updateWhereId db tid _
    exact updateWhereId_setStatus_idem db tid .completed
  · show updateWhereId (updateWhereId transfers tid _) tid _ = updateWhereId transfers tid _
    exact updateWhereId_setStatus_idem transfers tid .completed

/-- C6 witness: the theorem applied at a concrete pending transfer, showing
in addition that the concrete second call leaves the row completed. -/
theorem complete_unconditional_idempotent_witness :
    (∀ x ∈ (handleComplete true 1 [sampleTransfer] [sampleTransfer]).db, x.id = 1 →
      x.status = .completed)
    ∧ (handleComplete true 1 [sampleTransfer] [sampleTransfer]).result = .ok
    ∧ (handleComplete true 1 (handleComplete true 1 [sampleTransfer] [sampleTransfer]).db
        (handleComplete true 1 [sampleTransfer] [sampleTransfer]).transfers).result = .ok
    ∧ (handleComplete true 1 (handleComplete true 1 [sampleTransfer] [sampleTransfer]).db
        (handleComplete true 1 [sampleTransfer] [sampleTransfer]).transfers).db
        = (handleComplete true 1 [sampleTransfer] [sampleTransfer]).db
    ∧ (handleComplete true 1 (handleComplete true 1 [sampleTransfer] [sampleTransfer]).db
        (handleComplete true 1 [sampleTransfer] [sampleTransfer]).transfers).transfers
        = (handleComplete true 1 [sampleTransfer] [sampleTransfer]).transfers :=
  complete_unconditional_idempotent 1 [sampleTransfer] [sampleTransfer]

theorem markRead_map_id (l : List OverdueMessage) (mid : String)
    (h : ∀ m ∈ l, m.id = mid → m.is_read = true) :
    l.map (fun m => if m.id == mid then { m with is_read := true } else m) = l := by
  induction l with
  | nil => rfl
  | cons a as ih =>
    simp only [List.map_cons]
    have htail := ih (fun m hm => h m (List.mem_cons_of_mem a hm))
    by_cases h1 : a.id = mid
    · have ha : a.is_read = true := h a (List.mem_cons_self a as) h1
      have hhead : (if a.id == mid then { a with is_read := true } else a) = a := by
        rw [if_pos (by simp [h1])]
        cases a
        simp_all
      rw [hhead, htail]
    · rw [if_neg (by simp [h1]), htail]

/-- C9: the unread counter never becomes negative: any sequence of
markMessageAsRead calls, with repeated or unknown ids allowed, keeps the
counter nonnegative; marking an already read message leaves the message list
unchanged; and a fetch always installs a nonnegative counter. -/
theorem markRead_nonneg (s : NotifState) (mids : List String)
    (h : 0 ≤ s.unreadCount) :
    0 ≤ (mids.foldl (fun st mid => markMessageAsRead mid st) s).unreadCount
    ∧ (∀ mid, (∀ m ∈ s.overdueMessages, m.id = mid → m.is_read = true) →
        (markMessageAsRead mid s).overdueMessages = s.overdueMessages)
    ∧ (∀ env uid, 0 ≤ (fetchOverdueMessages env true uid s).unreadCount) := by
  refine ⟨?_, ?_, ?_⟩
  · induction mids generalizing s with
    | nil => exact h
    | cons a as ih => exact ih _ (le_max_left 0 _)
  · intro mid hall
    show s.overdueMessages.map _ = s.overdueMessages
    exact markRead_map_id s.overdueMessages mid hall
  · intro env uid
    rw [fetchOverdueMessages]
    simp

/-- C9 witness: the theorem applied at a state holding one unread message
with counter one, marked twice and once with an unknown id. -/
theorem markRead_nonneg_witness :
    0 ≤ ((["overdue-7", "overdue-7", "nope"].foldl
        (fun st mid => markMessageAsRead mid st)
        ⟨[], [overdueMsg ⟨7, "BK7", "d1", some 0, 500000⟩ 0 5], 1, none, none⟩).unreadCount)
    ∧ (∀ mid, (∀ m ∈ (⟨[], [overdueMsg ⟨7, "BK7", "d1", some 0, 500000⟩ 0 5], 1,
          none, none⟩ : NotifState).overdueMessages, m.id = mid → m.is_read = true) →
        (markMessageAsRead mid ⟨[], [overdueMsg ⟨7, "BK7", "d1", some 0, 500000⟩ 0 5],
          1, none, none⟩).overdueMessages
          = (⟨[], [overdueMsg ⟨7, "BK7", "d1", some 0, 500000⟩ 0 5], 1,
              none, none⟩ : NotifState).overdueMessages)
    ∧ (∀ env uid, 0 ≤ (fetchOverdueMessages env true uid
        ⟨[], [overdueMsg ⟨7, "BK7", "d1", some 0, 500000⟩ 0 5], 1,
          none, none⟩).unreadCount) :=
  markRead_nonneg ⟨[], [overdueMsg ⟨7, "BK7", "d1", some 0, 500000⟩ 0 5], 1, none, none⟩
    ["overdue-7", "overdue-7", "nope"] (by decide)

end DriverPortal

namespace SendWhatsapp

/-- C7 counterexample: a POST with a well-formed body whose upstream fetch
throws is answered with HTTP 200, but the envelope is success plus error
only: it has no status field and no data field, refuting the claim that
every non-OPTIONS request gets an envelope with success, status and data. -/
theorem envelope_counterexample :
    (serveHandler "POST" (.valid (.str "628111") "halo") (.failed "fetch failed")).response.status
      = 200
    ∧ (serveHandler "POST" (.valid (.str "628111") "halo") (.failed "fetch failed")).response.body
      = .json (.obj [("success", .bool false), ("error", .str "fetch failed")])
    ∧ JsonVal.getField (.obj [("success", .bool false), ("error", .str "fetch failed")]) "status"
      = none
    ∧ JsonVal.getField (.obj [("success", .bool false), ("error", .str "fetch failed")]) "data"
      = none :=
  ⟨rfl, rfl, rfl, rfl⟩

/-- C7 amended: every non-OPTIONS request is answered with HTTP 200. When
the request body parses and the upstream fetch returns a response, the
envelope carries success, status and data, the data field falling back to
an object with the raw response text when the upstream body is not JSON.
When the request body does not parse, or the upstream fetch itself throws,
the envelope carries success false and the error text instead, still with
HTTP 200, so errors are never signalled through a non-200 status. -/
theorem envelope_amended (method : String) (body : ReqBody)
    (upstream : UpstreamResult) (hm : method ≠ "OPTIONS") :
    (serveHandler method body upstream).response.status = 200
    ∧ (∀ t msg ok st bt p, body = .valid t msg → upstream = .resp ok st bt p →
        (serveHandler method body upstream).response.body
          = .json (.obj [("success", .bool ok), ("status", .num (Int.ofNat st)),
                         ("data", p.getD (.obj [("raw", .str bt)]))]))
    ∧ (∀ e, body = .invalid e →
        (serveHandler method body upstream).response.body
          = .json (.obj [("success", .bool false), ("error", .str e)]))
    ∧ (∀ t msg e, body = .valid t msg → upstream = .failed e →
        (serveHandler method body upstream).response.body
          = .json (.obj [("success", .bool false), ("error", .str e)])) := by
  have hb : (method == "OPTIONS") = false := by
    simp [hm]
  refine ⟨?_, ?_, ?_, ?_⟩
  · cases body with
    | invalid e => simp [serveHandler, hb]
    | valid t msg => cases upstream <;> simp [serveHandler, hb]
  · intro t msg ok st bt p hbody hup
    subst hbody
    subst hup
    cases p <;> simp [serveHandler, hb]
  · intro e hbody
    subst hbody
    simp [serveHandler, hb]
  · intro t msg e hbody hup
    subst hbody
    subst hup
    simp [serveHandler, hb]

/-- C7 amended witness: the theorem applied at a concrete POST whose
upstream answers with a non-JSON body. -/
theorem envelope_amended_witness :
    (serveHandler "POST" (.valid (.str "628111") "halo")
        (.resp false 500 "oops" none)).response.status = 200
    ∧ (∀ t msg ok st bt p,
        (ReqBody.valid (.str "628111") "halo") = .valid t msg →
        (UpstreamResult.resp false 500 "oops" none) = .resp ok st bt p →
        (serveHandler "POST" (.valid (.str "628111") "halo")
            (.resp false 500 "oops" none)).response.body
          = .json (.obj [("success", .bool ok), ("status", .num (Int.ofNat st)),
                         ("data", p.getD (.obj [("raw", .str bt)]))]))
    ∧ (∀ e, (ReqBody.valid (.str "628111") "halo") = .invalid e →
        (serveHandler "POST" (.valid (.str "628111") "halo")
            (.resp false 500 "oops" none)).response.body
          = .json (.obj [("success", .bool false), ("error", .str e)]))
    ∧ (∀ t msg e, (ReqBody.valid (.str "628111") "halo") = .valid t msg →
        (UpstreamResult.resp false 500 "oops" none) = .failed e →
        (serveHandler "POST" (.valid (.str "628111") "halo")
            (.resp false 500 "oops" none)).response.body
          = .json (.obj [("success", .bool false), ("error", .str e)])) :=
  envelope_amended "POST" (.valid (.str "628111") "halo")
    (.resp false 500 "oops" none) (by decide)

/-- C8 counterexample: for the array target with an empty middle element the
forwarded target is the join of the non-empty elements, not the comma-join
of all elements, refuting the claim for arrays with falsy entries. -/
theorem target_join_counterexample :
    (serveHandler "POST" (.valid (.arr ["628111", "", "628222"]) "msg")
        (.resp true 200 "ok" none)).forwarded = some ("628111,628222", "msg")
    ∧ String.intercalate "," ["628111", "", "628222"] = "628111,,628222"
    ∧ ("628111,628222" : String) ≠ "628111,,628222" :=
  ⟨rfl, by decide, by decide⟩

/-- C8 amended: for a request whose target is an array of non-empty strings,
the forwarded target is the comma-joined string of its elements; in
particular the pair 628111, 628222 forwards as the literal string
628111,628222. -/
theorem target_join_amended (elems : List String) (msg : String)
    (upstream : UpstreamResult) (h : ∀ x ∈ elems, x ≠ "") :
    (serveHandler "POST" (.valid (.arr elems) msg) upstream).forwarded
      = some (String.intercalate "," elems, msg) := by
  have hb : (("POST" : String) == "OPTIONS") = false := by decide
  have hf : elems.filter (fun x => x != "") = elems := by
    rw [List.filter_eq_self]
    intro a ha
    simpa using h a ha
  cases upstream <;> simp [serveHandler, formattedTarget, hb, hf]

/-- C8 amended witness: the theorem applied at the concrete pair of targets
628111 and 628222. -/
theorem target_join_amended_witness :
    (serveHandler "POST" (.valid (.arr ["628111", "628222"]) "halo")
        (.resp true 200 "ok" none)).forwarded
      = some (String.intercalate "," ["628111", "628222"], "halo") :=
  target_join_amended ["628111", "628222"] "halo" (.resp true 200 "ok" none)
    (by decide)

/-- C10: target normalisation drops falsy array elements before joining and
defaults scalars through String conversion and trim: an array forwards as
the comma-join of its non-empty elements, a string forwards trimmed, and a
null or undefined target forwards as the empty string; in particular the
array 628111, empty, 628222 forwards as 628111,628222 with no empty
segment. -/
theorem target_normalisation (elems : List String) (s msg : String)
    (up : UpstreamResult) :
    (serveHandler "POST" (.valid (.arr elems) msg) up).forwarded
      = some (String.intercalate "," (elems.filter (fun x => x != "")), msg)
    ∧ (serveHandler "POST" (.valid (.str s) msg) up).forwarded
      = some (jsTrim s, msg)
    ∧ (serveHandler "POST" (.valid .nullv msg) up).forwarded = some ("", msg)
    ∧ formattedTarget (.arr ["628111", "", "628222"]) = "628111,628222"
    ∧ jsTrim " 628111 " = "628111" := by
  have hb : (("POST" : String) == "OPTIONS") = false := by decide
  refine ⟨?_, ?_, ?_, by decide, by decide⟩ <;>
    cases up <;> simp [serveHandler, formattedTarget, hb]

end SendWhatsapp
